import Mathlib

/-!
Verification of the gopherbot workqueue enqueue/dispatch layer.

This file is a shallow embedding of the workqueue package (file
src/internal/gateway/gateway.go, package workqueue): the event-category
constants, the envelope codec (Publish field-map construction and
parseGatewayMessage), the helper unix, and the three dispatch-wrapper
factories (messageHandlerFactory, teamJoinHandlerFactory,
channelJoinHandlerFactory).

Modelling conventions:
  - Go int64 values are Lean Int; Go integer division and remainder
    (truncation toward zero) are Int.tdiv and Int.tmod.
  - time.Time is GoTime (seconds and nanoseconds); time.Unix is timeUnix,
    including its normalisation of out-of-range nanosecond arguments.
  - Go errors are Option String (none = nil); functions returning
    (value, error) become Except String value.
  - The transport field map (map[string]interface{}) is an association
    list String to FieldValue, where FieldValue.nonString stands for any
    value whose dynamic type is not string.
  - strconv.ParseInt(s, 10, 64) is parseInt64; strconv.FormatInt(i, 10)
    is formatInt (decimal digits via Mathlib's Nat.digits).
  - json.Unmarshal into a pointer-typed destination is jsonUnmarshalPtr,
    generic over the payload type and its (abstract) object parser; per
    the documented semantics of encoding/json, unmarshalling the JSON
    literal null into a pointer succeeds and leaves the pointer nil.
  - Each dispatch wrapper is modelled as a function from the delivered
    message to the ordered list of its observable actions (log calls,
    context creation, the handler call, context cancellation) paired
    with the error value it returns to the redisqueue consumer
    (none = the message is acknowledged). The registered handler is a
    function from the (possibly nil) decoded payload to its
    (shouldRetry, discarded, err) result triple. Wall-clock sampling
    inside the wrappers only feeds log durations and is not modelled;
    the per-dispatch deadline now + timeout is modelled by recording
    the timeout in the context-creation action.
-/

/-- A value held in the transport field map: either a Go string or a value
of some other dynamic type (whose content never matters to the code). -/
inductive FieldValue where
  | str (s : String)
  | nonString
deriving DecidableEq, Repr

/-- The flat string-keyed field map of a transport message
(map[string]interface\x7b\x7d in Go), as an association list. -/
def FieldMap : Type := List (String × FieldValue)

/-- Field lookup, modelling Go's `v, ok := m.Values[k]`. -/
def FieldMap.get (m : FieldMap) (k : String) : Option FieldValue :=
  List.lookup k m

/-- A delivered redisqueue.Message: transport id, stream name, field map. -/
structure Message where
  id : String
  stream : String
  values : FieldMap

/-- Go's time.Time, reduced to the (seconds, nanoseconds) pair that the
workqueue code observes. -/
structure GoTime where
  sec : Int
  nsec : Int
deriving DecidableEq, Repr

/-- Go's time.Unix(sec, nsec), including its normalisation of nsec into
[0, 1e9) with carry into sec. Go's / and % on int64 truncate toward zero,
hence Int.tdiv. -/
def timeUnix (sec nsec : Int) : GoTime :=
  if nsec < 0 ∨ 1000000000 ≤ nsec then
    let n := nsec.tdiv 1000000000
    let sec2 := sec + n
    let nsec2 := nsec - n * 1000000000
    if nsec2 < 0 then ⟨sec2 - 1, nsec2 + 1000000000⟩ else ⟨sec2, nsec2⟩
  else ⟨sec, nsec⟩

/-- The decimal value of a digit character, or none if the character is
not an ASCII digit. -/
def digitVal (c : Char) : Option Nat :=
  if '0' ≤ c ∧ c ≤ '9' then some (c.toNat - 48) else none

/-- Accumulating base-10 evaluation of a run of digit characters; none as
soon as a non-digit appears. -/
def digitsToNatAux : List Char → Nat → Option Nat
  | [], acc => some acc
  | c :: cs, acc =>
    match digitVal c with
    | some d => digitsToNatAux cs (acc * 10 + d)
    | none => none

/-- Go's strconv.ParseInt(s, 10, 64): an optional single sign followed by
a non-empty run of decimal digits, with the value required to fit in
int64. Failures are "invalid syntax" or "value out of range", the
messages strconv reports. -/
def parseInt64 (s : String) : Except String Int :=
  match s.data with
  | [] => .error "invalid syntax"
  | c :: cs =>
    let signed : Bool × List Char :=
      if c = '-' then (true, cs) else if c = '+' then (false, cs) else (false, c :: cs)
    match signed.2 with
    | [] => .error "invalid syntax"
    | ds =>
      match digitsToNatAux ds 0 with
      | none => .error "invalid syntax"
      | some n =>
        let v : Int := if signed.1 then -(n : Int) else (n : Int)
        if v < -(2 ^ 63) ∨ 2 ^ 63 - 1 < v then .error "value out of range"
        else .ok v

/-- Decimal rendering of a natural number (the digit list of Nat.digits,
most significant first, as ASCII characters). -/
def formatNat (n : Nat) : String :=
  if n = 0 then "0"
  else ⟨((Nat.digits 10 n).map (fun d => Char.ofNat (d + 48))).reverse⟩

/-- Go's strconv.FormatInt(i, 10): decimal digits with a leading minus
sign for negative values. -/
def formatInt (i : Int) : String :=
  if i < 0 then "-" ++ formatNat i.natAbs else formatNat i.natAbs

/-- The helper unix of the workqueue package: splits integer milliseconds
into whole seconds (truncated quotient by 1000) and the remainder
converted to nanoseconds (times int64(time.Millisecond) = 1e6). -/
def unix (i : Int) : Int × Int :=
  (i.tdiv 1000, i.tmod 1000 * 1000000)

/-- parseGatewayMessage: decodes the envelope out of a delivered field
map, in exactly the source's check order — presence of event_ts,
gateway_ts, event_id, json; then string-ness of json, event_id,
event_ts, gateway_ts; then base-10 parses of event_ts and gateway_ts —
returning (eventID, eventTime, gatewayTime, data) on success. -/
def parseGatewayMessage (m : FieldMap) :
    Except String (String × GoTime × GoTime × String) :=
  match m.get "event_ts" with
  | none => .error "redis stream malformed: event_ts not present"
  | some eti =>
  match m.get "gateway_ts" with
  | none => .error "redis stream malformed: gateway_ts not present"
  | some gti =>
  match m.get "event_id" with
  | none => .error "redis stream malformed: event_id not present"
  | some eidi =>
  match m.get "json" with
  | none => .error "redis stream malformed: json data not present"
  | some di =>
  match di with
  | .nonString => .error "json data is not a string"
  | .str d =>
  match eidi with
  | .nonString => .error "event_id data is not a string"
  | .str eid =>
  match eti with
  | .nonString => .error "event_ts is not a string"
  | .str ets =>
  match gti with
  | .nonString => .error "gateway_ts is not a string"
  | .str gts =>
  match parseInt64 ets with
  | .error e => .error ("failed to parse event_ts \"" ++ ets ++ "\": " ++ e)
  | .ok et =>
  match parseInt64 gts with
  | .error e => .error ("failed to parse gateway_ts \"" ++ gts ++ "\": " ++ e)
  | .ok gt =>
    let sns := unix gt
    .ok (eid, timeUnix et 0, timeUnix sns.1 sns.2, d)

/-- The field map built inside Publish. The wall clock sampled by
time.Now().UnixNano()/int64(time.Millisecond) at encode time is passed
explicitly as nowMillis; gateway_ts is stamped from it, never from the
caller. -/
def publishValues (nowMillis : Int) (eventTimestamp : Int)
    (eventID requestID : String) (jsonData : String) : FieldMap :=
  [("request_id", FieldValue.str requestID),
   ("gateway_ts", FieldValue.str (formatInt nowMillis)),
   ("event_ts", FieldValue.str (formatInt eventTimestamp)),
   ("event_id", FieldValue.str eventID),
   ("json", FieldValue.str jsonData)]

/-- Event category: a stream name (the Go type Event is a string whose
value Publish uses directly as the stream). -/
abbrev Event := String

/-- Stream name for public-channel Slack messages. -/
def slackPublicMessage : String := "slack_message_public"

/-- Stream name shared by all private-channel-shaped Slack messages. -/
def slackPrivateMessage : String := "slack_message_private"

/-- Stream name for team_join Slack events. -/
def slackTeamJoin : String := "slack_team_join"

/-- Stream name for member_joined_channel Slack events. -/
def slackChannelJoin : String := "slack_channel_join"

/-- Event for a message with channel_type "channel". -/
def SlackMessageChannel : Event := slackPublicMessage

/-- Event for a message with channel_type "app_home". -/
def SlackMessageAppHome : Event := slackPrivateMessage

/-- Event for a message with channel_type "group" (private channel). -/
def SlackMessageGroup : Event := slackPrivateMessage

/-- Event for a message with channel_type "im" (DM). -/
def SlackMessageIM : Event := slackPrivateMessage

/-- Event for a message with channel_type "mpim" (group DM). -/
def SlackMessageMPIM : Event := slackPrivateMessage

/-- Event for a team (workspace) join Slack event. -/
def SlackTeamJoin : Event := slackTeamJoin

/-- Event for a channel join Slack event. -/
def SlackChannelJoin : Event := slackChannelJoin

/-- The stream Publish appends to: Enqueue receives Stream: string(e). -/
def publishStream (e : Event) : String := e

/-- EventMetadata carried into handler execution: constructed in each
wrapper as EventMetadata\x7beid, et, gt, m.ID\x7d. -/
structure EventMetadata where
  eventID : String
  eventTime : GoTime
  gatewayTime : GoTime
  messageID : String
deriving DecidableEq, Repr

/-- json.Unmarshal of a payload string into a pointer-typed destination
(*T in Go, Option P here, none = nil pointer). Per the documented
semantics of encoding/json, the JSON literal null unmarshals into a
pointer by setting it to nil with no error; otherwise the abstract
object parser for the domain type decides. -/
def jsonUnmarshalPtr {P : Type} (parseP : String → Except String P)
    (s : String) : Except String (Option P) :=
  if s = "null" then .ok none else (parseP s).map some

/-- One observable action of a dispatch wrapper, in execution order:
the two parse-failure logs, creation of the context with its timeout
and the event metadata placed in the handler context, the handler call
with the decoded (possibly nil) payload, cancellation of the context,
and the three outcome logs. -/
inductive DispatchEvent (P : Type) where
  | logParseFailure (errMsg : String)
  | logJSONFailure (errMsg : String)
  | ctxCreated (timeout : Int) (meta : EventMetadata)
  | handlerCalled (payload : Option P)
  | ctxCanceled
  | logDiscarded (errMsg : String)
  | logHandlerFailed (shouldRetry : Bool) (errMsg : String)
  | logComplete
deriving DecidableEq, Repr

/-- The consumer function produced by messageHandlerFactory, as the list
of its observable actions plus the error it returns to the transport
(none = acknowledge). P is the domain payload type
(*slackevents.MessageEvent in the source), parseP its object parser and
fn the registered handler. -/
def messageHandlerFactory {P : Type} (timeout : Int)
    (parseP : String → Except String P)
    (fn : Option P → Bool × Bool × Option String)
    (m : Message) : List (DispatchEvent P) × Option String :=
  match parseGatewayMessage m.values with
  | .error e => ([.logParseFailure e], none)
  | .ok (eid, et, gt, d) =>
    match jsonUnmarshalPtr parseP d with
    | .error e => ([.logJSONFailure e], none)
    | .ok sm =>
      let meta : EventMetadata := ⟨eid, et, gt, m.id⟩
      let r := fn sm
      match r.2.2 with
      | some e =>
        if r.2.1 then
          ([.ctxCreated timeout meta, .handlerCalled sm, .ctxCanceled,
            .logDiscarded e], none)
        else if r.1 then
          ([.ctxCreated timeout meta, .handlerCalled sm, .ctxCanceled,
            .logHandlerFailed r.1 e], some e)
        else
          ([.ctxCreated timeout meta, .handlerCalled sm, .ctxCanceled,
            .logHandlerFailed r.1 e], none)
      | none =>
        ([.ctxCreated timeout meta, .handlerCalled sm, .ctxCanceled,
          .logComplete], none)

/-- The consumer function produced by teamJoinHandlerFactory; same
pipeline with P standing for *slack.TeamJoinEvent. -/
def teamJoinHandlerFactory {P : Type} (timeout : Int)
    (parseP : String → Except String P)
    (fn : Option P → Bool × Bool × Option String)
    (m : Message) : List (DispatchEvent P) × Option String :=
  match parseGatewayMessage m.values with
  | .error e => ([.logParseFailure e], none)
  | .ok (eid, et, gt, d) =>
    match jsonUnmarshalPtr parseP d with
    | .error e => ([.logJSONFailure e], none)
    | .ok stj =>
      let meta : EventMetadata := ⟨eid, et, gt, m.id⟩
      let r := fn stj
      match r.2.2 with
      | some e =>
        if r.2.1 then
          ([.ctxCreated timeout meta, .handlerCalled stj, .ctxCanceled,
            .logDiscarded e], none)
        else if r.1 then
          ([.ctxCreated timeout meta, .handlerCalled stj, .ctxCanceled,
            .logHandlerFailed r.1 e], some e)
        else
          ([.ctxCreated timeout meta, .handlerCalled stj, .ctxCanceled,
            .logHandlerFailed r.1 e], none)
      | none =>
        ([.ctxCreated timeout meta, .handlerCalled stj, .ctxCanceled,
          .logComplete], none)

/-- The consumer function produced by channelJoinHandlerFactory; same
pipeline with P standing for *slackevents.MemberJoinedChannelEvent. -/
def channelJoinHandlerFactory {P : Type} (timeout : Int)
    (parseP : String → Except String P)
    (fn : Option P → Bool × Bool × Option String)
    (m : Message) : List (DispatchEvent P) × Option String :=
  match parseGatewayMessage m.values with
  | .error e => ([.logParseFailure e], none)
  | .ok (eid, et, gt, d) =>
    match jsonUnmarshalPtr parseP d with
    | .error e => ([.logJSONFailure e], none)
    | .ok mjce =>
      let meta : EventMetadata := ⟨eid, et, gt, m.id⟩
      let r := fn mjce
      match r.2.2 with
      | some e =>
        if r.2.1 then
          ([.ctxCreated timeout meta, .handlerCalled mjce, .ctxCanceled,
            .logDiscarded e], none)
        else if r.1 then
          ([.ctxCreated timeout meta, .handlerCalled mjce, .ctxCanceled,
            .logHandlerFailed r.1 e], some e)
        else
          ([.ctxCreated timeout meta, .handlerCalled mjce, .ctxCanceled,
            .logHandlerFailed r.1 e], none)
      | none =>
        ([.ctxCreated timeout meta, .handlerCalled mjce, .ctxCanceled,
          .logComplete], none)

/-- A consumer registration: RegisterWithLastID(stream, "$", consumer). -/
structure Registration (P : Type) where
  stream : String
  lastConsumedID : String
  consumer : Message → List (DispatchEvent P) × Option String

/-- RegisterPublicMessagesHandler: registerMessageHandler on the
slackPublicMessage stream. -/
def registerPublicMessagesHandler {P : Type} (timeout : Int)
    (parseP : String → Except String P)
    (fn : Option P → Bool × Bool × Option String) : Registration P :=
  ⟨slackPublicMessage, "$", messageHandlerFactory timeout parseP fn⟩

/-- RegisterPrivateMessagesHandler: registerMessageHandler on the
slackPrivateMessage stream. -/
def registerPrivateMessagesHandler {P : Type} (timeout : Int)
    (parseP : String → Except String P)
    (fn : Option P → Bool × Bool × Option String) : Registration P :=
  ⟨slackPrivateMessage, "$", messageHandlerFactory timeout parseP fn⟩

/-- RegisterTeamJoinsHandler: registers on the slackTeamJoin stream. -/
def registerTeamJoinsHandler {P : Type} (timeout : Int)
    (parseP : String → Except String P)
    (fn : Option P → Bool × Bool × Option String) : Registration P :=
  ⟨slackTeamJoin, "$", teamJoinHandlerFactory timeout parseP fn⟩

/-- RegisterChannelJoinsHandler: registers on the slackChannelJoin
stream. -/
def registerChannelJoinsHandler {P : Type} (timeout : Int)
    (parseP : String → Except String P)
    (fn : Option P → Bool × Bool × Option String) : Registration P :=
  ⟨slackChannelJoin, "$", channelJoinHandlerFactory timeout parseP fn⟩

/-- The spec's scenario envelope: request_id r1, event_id e1,
event_ts 1700000000, gateway_ts 1700000000500, json payload an object. -/
def scenarioMap : FieldMap :=
  [("request_id", FieldValue.str "r1"),
   ("event_id", FieldValue.str "e1"),
   ("event_ts", FieldValue.str "1700000000"),
   ("gateway_ts", FieldValue.str "1700000000500"),
   ("json", FieldValue.str "\x7b\"ok\":true\x7d")]

/-- A delivered message carrying the scenario envelope. -/
def scenarioMessage : Message :=
  ⟨"1-1", slackPublicMessage, scenarioMap⟩

/-- A field map with the four fields the decoder reads all present and
valid, but no request_id entry. -/
def noRequestIDMap : FieldMap :=
  [("event_id", FieldValue.str "e1"),
   ("event_ts", FieldValue.str "10"),
   ("gateway_ts", FieldValue.str "2500"),
   ("json", FieldValue.str "\x7b\x7d")]

/-- A delivered message whose field map lacks request_id. -/
def noRequestIDMessage : Message :=
  ⟨"1-2", slackPublicMessage, noRequestIDMap⟩

/-- Field map missing event_ts (all other fields valid). -/
def noEventTsMap : FieldMap :=
  [("request_id", FieldValue.str "r1"),
   ("event_id", FieldValue.str "e1"),
   ("gateway_ts", FieldValue.str "2500"),
   ("json", FieldValue.str "\x7b\x7d")]

/-- Field map missing gateway_ts (all other fields valid). -/
def noGatewayTsMap : FieldMap :=
  [("request_id", FieldValue.str "r1"),
   ("event_id", FieldValue.str "e1"),
   ("event_ts", FieldValue.str "10"),
   ("json", FieldValue.str "\x7b\x7d")]

/-- Field map missing event_id (all other fields valid). -/
def noEventIDMap : FieldMap :=
  [("request_id", FieldValue.str "r1"),
   ("event_ts", FieldValue.str "10"),
   ("gateway_ts", FieldValue.str "2500"),
   ("json", FieldValue.str "\x7b\x7d")]

/-- Field map missing json (all other fields valid). -/
def noJSONMap : FieldMap :=
  [("request_id", FieldValue.str "r1"),
   ("event_id", FieldValue.str "e1"),
   ("event_ts", FieldValue.str "10"),
   ("gateway_ts", FieldValue.str "2500")]

/-- A valid envelope whose json field is the JSON literal null. -/
def nullPayloadMessage : Message :=
  ⟨"1-3", slackPublicMessage,
   [("request_id", FieldValue.str "r1"),
    ("event_id", FieldValue.str "e1"),
    ("event_ts", FieldValue.str "1700000000"),
    ("gateway_ts", FieldValue.str "1700000000500"),
    ("json", FieldValue.str "null")]⟩

/-- A delivered message whose field map lacks event_ts. -/
def noEventTsMessage : Message :=
  ⟨"2-1", slackPublicMessage, noEventTsMap⟩

/-- A delivered message whose field map lacks gateway_ts. -/
def noGatewayTsMessage : Message :=
  ⟨"2-2", slackPublicMessage, noGatewayTsMap⟩

/-- A delivered message whose field map lacks event_id. -/
def noEventIDMessage : Message :=
  ⟨"2-3", slackPublicMessage, noEventIDMap⟩

/-- A delivered message whose field map lacks json. -/
def noJSONMessage : Message :=
  ⟨"2-4", slackPublicMessage, noJSONMap⟩

/-- An envelope whose event_ts is not numeric. -/
def badEventTsMessage : Message :=
  ⟨"1-4", slackPublicMessage,
   [("request_id", FieldValue.str "r1"),
    ("event_id", FieldValue.str "e1"),
    ("event_ts", FieldValue.str "abc"),
    ("gateway_ts", FieldValue.str "2500"),
    ("json", FieldValue.str "\x7b\x7d")]⟩

theorem parseGatewayMessage_ok_iff (m : FieldMap) (eid : String)
    (ett gtt : GoTime) (d : String) :
    parseGatewayMessage m = .ok (eid, ett, gtt, d) ↔
    ∃ ets gts et g,
      m.get "event_ts" = some (.str ets) ∧
      m.get "gateway_ts" = some (.str gts) ∧
      m.get "event_id" = some (.str eid) ∧
      m.get "json" = some (.str d) ∧
      parseInt64 ets = .ok et ∧
      parseInt64 gts = .ok g ∧
      ett = timeUnix et 0 ∧
      gtt = timeUnix (unix g).1 (unix g).2 := by
  constructor
  · intro h
    unfold parseGatewayMessage at h
    split at h; · exact absurd h (by simp)
    split at h; · exact absurd h (by simp)
    split at h; · exact absurd h (by simp)
    split at h; · exact absurd h (by simp)
    split at h; · exact absurd h (by simp)
    split at h; · exact absurd h (by simp)
    split at h; · exact absurd h (by simp)
    split at h; · exact absurd h (by simp)
    split at h; · exact absurd h (by simp)
    split at h; · exact absurd h (by simp)
    simp only [Except.ok.injEq, Prod.mk.injEq] at h
    obtain ⟨rfl, rfl, rfl, rfl⟩ := h
    exact ⟨_, _, _, _, by assumption, by assumption, by assumption, by assumption,
      by assumption, by assumption, rfl, rfl⟩
  · rintro ⟨ets, gts, et, g, h1, h2, h3, h4, h5, h6, rfl, rfl⟩
    unfold parseGatewayMessage
    rw [h1, h2, h3, h4]
    simp [h5, h6]

theorem digitVal_ofNat_digit (d : Nat) (h : d < 10) :
    digitVal (Char.ofNat (d + 48)) = some d := by
  interval_cases d <;> decide

theorem digitsToNatAux_map (l : List Nat) (acc : Nat) (h : ∀ d ∈ l, d < 10) :
    digitsToNatAux (l.map (fun d => Char.ofNat (d + 48))) acc =
      some (l.foldl (fun a d => a * 10 + d) acc) := by
  induction l generalizing acc with
  | nil => rfl
  | cons d t ih =>
    have hd : d < 10 := h d (List.mem_cons_self d t)
    simp only [List.map_cons, digitsToNatAux, digitVal_ofNat_digit d hd,
      List.foldl_cons]
    exact ih (acc * 10 + d) (fun x hx => h x (List.mem_cons_of_mem _ hx))

theorem foldl_reverse_ofDigits (l : List Nat) (acc : Nat) :
    l.reverse.foldl (fun a d => a * 10 + d) acc =
      acc * 10 ^ l.length + Nat.ofDigits 10 l := by
  induction l generalizing acc with
  | nil => simp [Nat.ofDigits]
  | cons d t ih =>
    simp only [List.reverse_cons, List.foldl_append, List.foldl_cons,
      List.foldl_nil, ih, Nat.ofDigits_cons, List.length_cons]
    ring

theorem formatNat_spec (m : Nat) :
    ∃ c cs, (formatNat m).data = c :: cs ∧ digitVal c ≠ none ∧
      digitsToNatAux (c :: cs) 0 = some m := by
  by_cases h0 : m = 0
  · subst h0
    exact ⟨'0', [], rfl, by decide, by decide⟩
  · have hd : Nat.digits 10 m ≠ [] := Nat.digits_ne_nil_iff_ne_zero.mpr h0
    have hlt : ∀ x ∈ (Nat.digits 10 m).reverse, x < 10 := fun x hx =>
      Nat.digits_lt_base (by norm_num) (List.mem_reverse.mp hx)
    have hdata : (formatNat m).data =
        ((Nat.digits 10 m).reverse.map (fun d => Char.ofNat (d + 48))) := by
      simp [formatNat, h0, List.map_reverse]
    have hfold : digitsToNatAux
        ((Nat.digits 10 m).reverse.map (fun d => Char.ofNat (d + 48))) 0 =
        some m := by
      rw [digitsToNatAux_map _ 0 hlt, foldl_reverse_ofDigits]
      simp [Nat.ofDigits_digits]
    cases hrev : (Nat.digits 10 m).reverse with
    | nil => exact absurd (by simpa using congrArg List.reverse hrev) hd
    | cons d t =>
      refine ⟨Char.ofNat (d + 48), t.map (fun d => Char.ofNat (d + 48)), ?_, ?_, ?_⟩
      · rw [hdata, hrev]; rfl
      · rw [digitVal_ofNat_digit d (hlt d (by rw [hrev]; exact List.mem_cons_self d t))]
        simp
      · have h5 := hfold
        rw [hrev] at h5
        simpa using h5

theorem digitVal_ne_sign {c : Char} (h : digitVal c ≠ none) : c ≠ '-' ∧ c ≠ '+' := by
  constructor <;> rintro rfl <;> exact h rfl

theorem parseInt64_formatInt (i : Int) (h1 : -(2 ^ 63) ≤ i) (h2 : i ≤ 2 ^ 63 - 1) :
    parseInt64 (formatInt i) = .ok i := by
  obtain ⟨c, cs, hdata, hdig, haux⟩ := formatNat_spec i.natAbs
  obtain ⟨hc1, hc2⟩ := digitVal_ne_sign hdig
  by_cases hi : i < 0
  · have hsd : (formatInt i).data = '-' :: c :: cs := by
      have hfi : formatInt i = "-" ++ formatNat i.natAbs := by
        simp [formatInt, hi]
      rw [hfi]
      show '-' :: (formatNat i.natAbs).data = _
      rw [hdata]
    unfold parseInt64
    rw [hsd]
    show (let signed := if ('-' : Char) = '-' then (true, c :: cs)
            else if ('-' : Char) = '+' then (false, c :: cs) else (false, '-' :: c :: cs);
          match signed.2 with
          | [] => Except.error "invalid syntax"
          | ds =>
            match digitsToNatAux ds 0 with
            | none => Except.error "invalid syntax"
            | some n =>
              let v : Int := if signed.1 = true then -(n : Int) else (n : Int)
              if v < -(2 ^ 63) ∨ 2 ^ 63 - 1 < v then Except.error "value out of range"
              else Except.ok v) = Except.ok i
    rw [if_pos (rfl : ('-' : Char) = '-')]
    dsimp only
    rw [haux]
    have hv : -((i.natAbs : Nat) : Int) = i := by omega
    have hrange : ¬((-((i.natAbs : Nat) : Int)) < -(2 ^ 63) ∨
        (2 ^ 63 - 1 : Int) < -((i.natAbs : Nat) : Int)) := by omega
    show (if (-((i.natAbs : Nat) : Int)) < -(2 ^ 63) ∨
            (2 ^ 63 - 1 : Int) < -((i.natAbs : Nat) : Int)
          then Except.error "value out of range"
          else Except.ok (-((i.natAbs : Nat) : Int))) = Except.ok i
    rw [if_neg hrange, hv]
  · have hsd : (formatInt i).data = c :: cs := by
      simp only [formatInt, if_neg hi]
      exact hdata
    unfold parseInt64
    rw [hsd]
    simp only [if_neg hc1, if_neg hc2]
    rw [haux]
    have hv : ((i.natAbs : Nat) : Int) = i := by omega
    simp only [hv]
    rw [if_neg (by omega)]
    simp

theorem natAbs_tmod (a b : Int) : (a.tmod b).natAbs = a.natAbs % b.natAbs := by
  cases a <;> cases b <;>
    simp only [Int.tmod, Int.natAbs_neg, Int.natAbs_ofNat, Int.natAbs_negSucc] <;> rfl

theorem ms_value (g : Int) :
    (timeUnix (unix g).1 (unix g).2).sec * 1000 +
      (timeUnix (unix g).1 (unix g).2).nsec.tdiv 1000000 = g := by
  have hqr : 1000 * g.tdiv 1000 + g.tmod 1000 = g := Int.tdiv_add_tmod g 1000
  have habs : (g.tmod 1000).natAbs = g.natAbs % 1000 := natAbs_tmod g 1000
  have hrb : (g.tmod 1000).natAbs < 1000 := by
    rw [habs]; exact Nat.mod_lt _ (by norm_num)
  unfold unix timeUnix
  rcases le_or_lt 0 (g.tmod 1000) with hr0 | hr0
  · rw [if_neg (by omega)]
    simp only
    rw [Int.mul_tdiv_cancel _ (by norm_num : (1000000 : Int) ≠ 0)]
    omega
  · rw [if_pos (by omega)]
    have hn : (g.tmod 1000 * 1000000).tdiv 1000000000 = 0 := by
      have hd1 := Int.natAbs_tdiv (g.tmod 1000 * 1000000) 1000000000
      have hd2 : (g.tmod 1000 * 1000000).natAbs = (g.tmod 1000).natAbs * 1000000 := by
        rw [Int.natAbs_mul]; rfl
      have hd3 : (g.tmod 1000 * 1000000).natAbs / 1000000000 = 0 :=
        Nat.div_eq_of_lt (by omega)
      have hd4 : ((g.tmod 1000 * 1000000).tdiv 1000000000).natAbs = 0 := by
        rw [hd1]
        simpa using hd3
      omega
    simp only [hn]
    rw [if_pos (by omega)]
    simp only
    have heq : g.tmod 1000 * 1000000 - 0 * 1000000000 + 1000000000 =
        (g.tmod 1000 + 1000) * 1000000 := by ring
    rw [heq, Int.mul_tdiv_cancel _ (by norm_num : (1000000 : Int) ≠ 0)]
    omega

theorem parse_missing_event_ts (m : FieldMap) (h : m.get "event_ts" = none) :
    parseGatewayMessage m = .error "redis stream malformed: event_ts not present" := by
  unfold parseGatewayMessage
  rw [h]

theorem parse_missing_gateway_ts (m : FieldMap) (v : FieldValue)
    (h1 : m.get "event_ts" = some v) (h2 : m.get "gateway_ts" = none) :
    parseGatewayMessage m = .error "redis stream malformed: gateway_ts not present" := by
  unfold parseGatewayMessage
  rw [h1, h2]

theorem parse_missing_event_id (m : FieldMap) (v1 v2 : FieldValue)
    (h1 : m.get "event_ts" = some v1) (h2 : m.get "gateway_ts" = some v2)
    (h3 : m.get "event_id" = none) :
    parseGatewayMessage m = .error "redis stream malformed: event_id not present" := by
  unfold parseGatewayMessage
  rw [h1, h2, h3]

theorem parse_missing_json (m : FieldMap) (v1 v2 v3 : FieldValue)
    (h1 : m.get "event_ts" = some v1) (h2 : m.get "gateway_ts" = some v2)
    (h3 : m.get "event_id" = some v3) (h4 : m.get "json" = none) :
    parseGatewayMessage m = .error "redis stream malformed: json data not present" := by
  unfold parseGatewayMessage
  rw [h1, h2, h3, h4]

theorem parse_bad_event_ts (m : FieldMap) (ets gts eid d : String)
    (h1 : m.get "event_ts" = some (.str ets))
    (h2 : m.get "gateway_ts" = some (.str gts))
    (h3 : m.get "event_id" = some (.str eid))
    (h4 : m.get "json" = some (.str d))
    (e : String) (h5 : parseInt64 ets = .error e) :
    parseGatewayMessage m =
      .error ("failed to parse event_ts \"" ++ ets ++ "\": " ++ e) := by
  unfold parseGatewayMessage
  rw [h1, h2, h3, h4]
  simp [h5]

theorem parse_bad_gateway_ts (m : FieldMap) (ets gts eid d : String)
    (h1 : m.get "event_ts" = some (.str ets))
    (h2 : m.get "gateway_ts" = some (.str gts))
    (h3 : m.get "event_id" = some (.str eid))
    (h4 : m.get "json" = some (.str d))
    (et : Int) (h5 : parseInt64 ets = .ok et)
    (e : String) (h6 : parseInt64 gts = .error e) :
    parseGatewayMessage m =
      .error ("failed to parse gateway_ts \"" ++ gts ++ "\": " ++ e) := by
  unfold parseGatewayMessage
  rw [h1, h2, h3, h4]
  simp [h5, h6]

theorem timeUnix_zero_nsec (s : Int) : timeUnix s 0 = ⟨s, 0⟩ := by
  simp [timeUnix]

theorem parseGatewayMessage_publishValues (nowMillis ts : Int)
    (h1 : -(2 ^ 63) ≤ nowMillis) (h2 : nowMillis ≤ 2 ^ 63 - 1)
    (h3 : -(2 ^ 63) ≤ ts) (h4 : ts ≤ 2 ^ 63 - 1)
    (eventID requestID jsonData : String) :
    parseGatewayMessage (publishValues nowMillis ts eventID requestID jsonData) =
      .ok (eventID, ⟨ts, 0⟩, timeUnix (unix nowMillis).1 (unix nowMillis).2,
        jsonData) := by
  refine (parseGatewayMessage_ok_iff _ _ _ _ _).mpr
    ⟨formatInt ts, formatInt nowMillis, ts, nowMillis, rfl, rfl, rfl, rfl,
      parseInt64_formatInt ts h3 h4, parseInt64_formatInt nowMillis h1 h2,
      (timeUnix_zero_nsec ts).symm, rfl⟩

/-- C1: for a delivered message whose envelope and JSON payload both decode
successfully, the dispatch wrapper returns a non-nil error to the transport
iff the handler returned a non-nil error with discarded = false and
shouldRetry = true, and in that case it returns the handler's error
unchanged; for every other (shouldRetry, discarded, err) combination it
returns nil. The classification is a function of the handler's result
triple alone. -/
theorem claim_c1_retry_signal {P : Type} (timeout : Int)
    (parseP : String → Except String P)
    (fn : Option P → Bool × Bool × Option String) (m : Message)
    (eid : String) (et gt : GoTime) (d : String) (sm : Option P)
    (sr dis : Bool) (err : Option String)
    (hparse : parseGatewayMessage m.values = .ok (eid, et, gt, d))
    (hjson : jsonUnmarshalPtr parseP d = .ok sm)
    (hfn : fn sm = (sr, dis, err)) :
    (messageHandlerFactory timeout parseP fn m).2 =
      (if dis = false ∧ sr = true then err else none) ∧
    ((messageHandlerFactory timeout parseP fn m).2 ≠ none ↔
      err ≠ none ∧ dis = false ∧ sr = true) := by
  have key : (messageHandlerFactory timeout parseP fn m).2 =
      (if dis = false ∧ sr = true then err else none) := by
    unfold messageHandlerFactory
    rw [hparse]
    dsimp only
    rw [hjson]
    dsimp only
    rw [hfn]
    rcases err with _ | e <;> rcases dis <;> rcases sr <;> simp
  refine ⟨key, ?_⟩
  rw [key]
  rcases err with _ | e <;> rcases dis <;> rcases sr <;> simp

/-- Witness for C1: on the scenario message, a handler returning
(shouldRetry = true, discarded = false, a non-nil error) makes the wrapper
return exactly that error. -/
theorem claim_c1_retry_signal_witness :
    (messageHandlerFactory 7 (fun _ => Except.ok ())
      (fun _ => (true, false, some "boom")) scenarioMessage).2 =
      (if false = false ∧ true = true then some "boom" else none) ∧
    ((messageHandlerFactory 7 (fun _ => Except.ok ())
      (fun _ => (true, false, some "boom")) scenarioMessage).2 ≠ none ↔
      some "boom" ≠ none ∧ false = false ∧ true = true) :=
  claim_c1_retry_signal 7 (fun _ => Except.ok ())
    (fun _ => (true, false, some "boom")) scenarioMessage
    "e1" ⟨1700000000, 0⟩ ⟨1700000000, 500000000⟩ "\x7b\"ok\":true\x7d"
    (some ()) true false (some "boom") rfl rfl rfl

/-- C2 counterexample: the decoder never reads request_id. A field map with
the four fields it does read (event_ts, gateway_ts, event_id, json) present
and valid but with no request_id entry decodes successfully and the
registered handler is invoked, contradicting the claim that a map missing
any one of the five envelope fields fails to decode. -/
theorem claim_c2_request_id_counterexample :
    noRequestIDMap.get "request_id" = none ∧
    parseGatewayMessage noRequestIDMap =
      .ok ("e1", ⟨10, 0⟩, ⟨2, 500000000⟩, "\x7b\x7d") ∧
    DispatchEvent.handlerCalled (P := Unit) (some ()) ∈
      (messageHandlerFactory 5 (fun _ => Except.ok ())
        (fun _ => (false, false, none)) noRequestIDMessage).1 := by
  refine ⟨rfl, rfl, ?_⟩
  have h : (messageHandlerFactory 5 (fun _ => Except.ok ())
      (fun _ => (false, false, none)) noRequestIDMessage).1 =
      [DispatchEvent.ctxCreated 5 ⟨"e1", ⟨10, 0⟩, ⟨2, 500000000⟩, "1-2"⟩,
       DispatchEvent.handlerCalled (some ()), DispatchEvent.ctxCanceled,
       DispatchEvent.logComplete] := rfl
  rw [h]
  simp

/-- C2 as amended: for every field map missing any one of the FOUR fields
the decoder requires (event_ts, gateway_ts, event_id, json — checked in
that order), decoding fails with a malformed-envelope error naming that
field and the wrapper returns without invoking any handler; request_id is
not among the fields decode examines. -/
theorem claim_c2_missing_fields_amended {P : Type} (timeout : Int)
    (parseP : String → Except String P)
    (fn : Option P → Bool × Bool × Option String) (m : Message) :
    (m.values.get "event_ts" = none →
       parseGatewayMessage m.values =
         .error "redis stream malformed: event_ts not present" ∧
       messageHandlerFactory timeout parseP fn m =
         ([DispatchEvent.logParseFailure
            "redis stream malformed: event_ts not present"], none)) ∧
    (∀ v1, m.values.get "event_ts" = some v1 →
       m.values.get "gateway_ts" = none →
       parseGatewayMessage m.values =
         .error "redis stream malformed: gateway_ts not present" ∧
       messageHandlerFactory timeout parseP fn m =
         ([DispatchEvent.logParseFailure
            "redis stream malformed: gateway_ts not present"], none)) ∧
    (∀ v1 v2, m.values.get "event_ts" = some v1 →
       m.values.get "gateway_ts" = some v2 →
       m.values.get "event_id" = none →
       parseGatewayMessage m.values =
         .error "redis stream malformed: event_id not present" ∧
       messageHandlerFactory timeout parseP fn m =
         ([DispatchEvent.logParseFailure
            "redis stream malformed: event_id not present"], none)) ∧
    (∀ v1 v2 v3, m.values.get "event_ts" = some v1 →
       m.values.get "gateway_ts" = some v2 →
       m.values.get "event_id" = some v3 →
       m.values.get "json" = none →
       parseGatewayMessage m.values =
         .error "redis stream malformed: json data not present" ∧
       messageHandlerFactory timeout parseP fn m =
         ([DispatchEvent.logParseFailure
            "redis stream malformed: json data not present"], none)) := by
  refine ⟨?_, ?_, ?_, ?_⟩
  · intro h
    have he := parse_missing_event_ts m.values h
    exact ⟨he, by unfold messageHandlerFactory; rw [he]⟩
  · intro v1 h1 h2
    have he := parse_missing_gateway_ts m.values v1 h1 h2
    exact ⟨he, by unfold messageHandlerFactory; rw [he]⟩
  · intro v1 v2 h1 h2 h3
    have he := parse_missing_event_id m.values v1 v2 h1 h2 h3
    exact ⟨he, by unfold messageHandlerFactory; rw [he]⟩
  · intro v1 v2 v3 h1 h2 h3 h4
    have he := parse_missing_json m.values v1 v2 v3 h1 h2 h3 h4
    exact ⟨he, by unfold messageHandlerFactory; rw [he]⟩

/-- Witness for the amended C2: concrete maps each missing exactly one of
the four required fields fail with the error naming that field, and the
wrapper dispatches no handler. -/
theorem claim_c2_missing_fields_amended_witness :
    (parseGatewayMessage noEventTsMap =
       .error "redis stream malformed: event_ts not present" ∧
     messageHandlerFactory 5 (fun _ => Except.ok ())
       (fun _ => (false, false, none)) noEventTsMessage =
       ([DispatchEvent.logParseFailure
          "redis stream malformed: event_ts not present"], none)) ∧
    (parseGatewayMessage noGatewayTsMap =
       .error "redis stream malformed: gateway_ts not present" ∧
     messageHandlerFactory 5 (fun _ => Except.ok ())
       (fun _ => (false, false, none)) noGatewayTsMessage =
       ([DispatchEvent.logParseFailure
          "redis stream malformed: gateway_ts not present"], none)) ∧
    (parseGatewayMessage noEventIDMap =
       .error "redis stream malformed: event_id not present" ∧
     messageHandlerFactory 5 (fun _ => Except.ok ())
       (fun _ => (false, false, none)) noEventIDMessage =
       ([DispatchEvent.logParseFailure
          "redis stream malformed: event_id not present"], none)) ∧
    (parseGatewayMessage noJSONMap =
       .error "redis stream malformed: json data not present" ∧
     messageHandlerFactory 5 (fun _ => Except.ok ())
       (fun _ => (false, false, none)) noJSONMessage =
       ([DispatchEvent.logParseFailure
          "redis stream malformed: json data not present"], none)) :=
  ⟨(claim_c2_missing_fields_amended 5 (fun _ => Except.ok ())
      (fun _ => (false, false, none)) noEventTsMessage).1 rfl,
   (claim_c2_missing_fields_amended 5 (fun _ => Except.ok ())
      (fun _ => (false, false, none)) noGatewayTsMessage).2.1
      (FieldValue.str "10") rfl rfl,
   (claim_c2_missing_fields_amended 5 (fun _ => Except.ok ())
      (fun _ => (false, false, none)) noEventIDMessage).2.2.1
      (FieldValue.str "10") (FieldValue.str "2500") rfl rfl rfl,
   (claim_c2_missing_fields_amended 5 (fun _ => Except.ok ())
      (fun _ => (false, false, none)) noJSONMessage).2.2.2
      (FieldValue.str "10") (FieldValue.str "2500") (FieldValue.str "e1")
      rfl rfl rfl rfl⟩

/-- C3: every decode failure — a required field missing, a field of
non-string dynamic type, or a timestamp field that does not parse as a
base-10 integer — and every JSON-payload unmarshal failure makes the
dispatch wrapper log the failure and return nil to the transport without
ever invoking the registered handler or propagating an error upward. -/
theorem claim_c3_parse_errors_absorbed {P : Type} (timeout : Int)
    (parseP : String → Except String P)
    (fn : Option P → Bool × Bool × Option String) (m : Message) :
    (∀ e, parseGatewayMessage m.values = .error e →
       messageHandlerFactory timeout parseP fn m =
         ([DispatchEvent.logParseFailure e], none)) ∧
    (∀ eid et gt d e, parseGatewayMessage m.values = .ok (eid, et, gt, d) →
       jsonUnmarshalPtr parseP d = .error e →
       messageHandlerFactory timeout parseP fn m =
         ([DispatchEvent.logJSONFailure e], none)) ∧
    (∀ ets gts eid d,
       m.values.get "event_ts" = some (.str ets) →
       m.values.get "gateway_ts" = some (.str gts) →
       m.values.get "event_id" = some (.str eid) →
       m.values.get "json" = some (.str d) →
       (∀ e, parseInt64 ets = .error e →
          parseGatewayMessage m.values =
            .error ("failed to parse event_ts \"" ++ ets ++ "\": " ++ e)) ∧
       (∀ et e, parseInt64 ets = .ok et → parseInt64 gts = .error e →
          parseGatewayMessage m.values =
            .error ("failed to parse gateway_ts \"" ++ gts ++ "\": " ++ e))) := by
  refine ⟨?_, ?_, ?_⟩
  · intro e h
    unfold messageHandlerFactory
    rw [h]
  · intro eid et gt d e hp hj
    unfold messageHandlerFactory
    rw [hp]
    dsimp only
    rw [hj]
  · intro ets gts eid d h1 h2 h3 h4
    exact ⟨fun e h5 => parse_bad_event_ts m.values ets gts eid d h1 h2 h3 h4 e h5,
      fun et e h5 h6 =>
        parse_bad_gateway_ts m.values ets gts eid d h1 h2 h3 h4 et h5 e h6⟩

/-- Witness for C3: a missing event_ts, a failing payload parser on a
valid envelope, and a non-numeric event_ts each produce the absorbed
error path at concrete inputs. -/
theorem claim_c3_parse_errors_absorbed_witness :
    messageHandlerFactory 5 (fun _ => Except.ok ())
      (fun _ => (false, false, none)) noEventTsMessage =
      ([DispatchEvent.logParseFailure
         "redis stream malformed: event_ts not present"], none) ∧
    messageHandlerFactory (P := Unit) 5 (fun _ => Except.error "bad shape")
      (fun _ => (false, false, none)) scenarioMessage =
      ([DispatchEvent.logJSONFailure "bad shape"], none) ∧
    parseGatewayMessage badEventTsMessage.values =
      .error ("failed to parse event_ts \"" ++ "abc" ++ "\": " ++ "invalid syntax") :=
  ⟨(claim_c3_parse_errors_absorbed 5 (fun _ => Except.ok ())
      (fun _ => (false, false, none)) noEventTsMessage).1
      "redis stream malformed: event_ts not present" rfl,
   (claim_c3_parse_errors_absorbed (P := Unit) 5 (fun _ => Except.error "bad shape")
      (fun _ => (false, false, none)) scenarioMessage).2.1
      "e1" ⟨1700000000, 0⟩ ⟨1700000000, 500000000⟩ "\x7b\"ok\":true\x7d"
      "bad shape" rfl rfl,
   ((claim_c3_parse_errors_absorbed (P := Unit) 5 (fun _ => Except.ok ())
      (fun _ => (false, false, none)) badEventTsMessage).2.2
      "abc" "2500" "e1" "\x7b\x7d" rfl rfl rfl rfl).1 "invalid syntax" rfl⟩

/-- C4: decoding the field map built by Publish recovers the event id and
the payload unchanged, the event timestamp at second precision, and an
enqueue time whose millisecond value equals the wall clock sampled inside
Publish at encode time (gateway_ts is not caller-supplied). -/
theorem claim_c4_roundtrip (nowMillis ts : Int)
    (h1 : -(2 ^ 63) ≤ nowMillis) (h2 : nowMillis ≤ 2 ^ 63 - 1)
    (h3 : -(2 ^ 63) ≤ ts) (h4 : ts ≤ 2 ^ 63 - 1)
    (eventID requestID jsonData : String) :
    ∃ gtt : GoTime,
      parseGatewayMessage (publishValues nowMillis ts eventID requestID jsonData) =
        .ok (eventID, ⟨ts, 0⟩, gtt, jsonData) ∧
      gtt.sec * 1000 + gtt.nsec.tdiv 1000000 = nowMillis :=
  ⟨timeUnix (unix nowMillis).1 (unix nowMillis).2,
   parseGatewayMessage_publishValues nowMillis ts h1 h2 h3 h4
     eventID requestID jsonData,
   ms_value nowMillis⟩

/-- Witness for C4: the round trip at a concrete clock value and event
timestamp. -/
theorem claim_c4_roundtrip_witness :
    ∃ gtt : GoTime,
      parseGatewayMessage
        (publishValues 1700000000500 1700000000 "Ev1" "Rq1" "payload") =
        .ok ("Ev1", ⟨1700000000, 0⟩, gtt, "payload") ∧
      gtt.sec * 1000 + gtt.nsec.tdiv 1000000 = 1700000000500 :=
  claim_c4_roundtrip 1700000000500 1700000000 (by norm_num) (by norm_num)
    (by norm_num) (by norm_num) "Ev1" "Rq1" "payload"

/-- C5: decoding reconstructs event_ts as a whole-second timestamp with
zero sub-second component and gateway_ts by splitting the millisecond
integer g into g/1000 whole seconds (truncated) and (g mod 1000)·10^6
nanoseconds; on the spec's scenario envelope this yields event time
1700000000 s, enqueue time 1700000000.500 s, and the payload string
unchanged. -/
theorem claim_c5_timestamp_decode :
    (∀ (m : FieldMap) (eid : String) (ett gtt : GoTime) (d : String),
       parseGatewayMessage m = .ok (eid, ett, gtt, d) →
       ett.nsec = 0 ∧
       ∃ ets gts et g,
         m.get "event_ts" = some (.str ets) ∧ parseInt64 ets = .ok et ∧
         m.get "gateway_ts" = some (.str gts) ∧ parseInt64 gts = .ok g ∧
         ett = timeUnix et 0 ∧
         gtt = timeUnix (g.tdiv 1000) (g.tmod 1000 * 1000000)) ∧
    parseGatewayMessage scenarioMap =
      .ok ("e1", ⟨1700000000, 0⟩, ⟨1700000000, 500000000⟩,
        "\x7b\"ok\":true\x7d") := by
  constructor
  · intro m eid ett gtt d h
    obtain ⟨ets, gts, et, g, h1, h2, h3, h4, h5, h6, h7, h8⟩ :=
      (parseGatewayMessage_ok_iff m eid ett gtt d).mp h
    refine ⟨?_, ets, gts, et, g, h1, h5, h2, h6, h7, h8⟩
    rw [h7, timeUnix_zero_nsec]
  · rfl

/-- Witness for C5: the general decode-shape statement applied to the
scenario envelope. -/
theorem claim_c5_timestamp_decode_witness :
    (GoTime.mk 1700000000 0).nsec = 0 ∧
    ∃ ets gts et g,
      scenarioMap.get "event_ts" = some (.str ets) ∧ parseInt64 ets = .ok et ∧
      scenarioMap.get "gateway_ts" = some (.str gts) ∧ parseInt64 gts = .ok g ∧
      GoTime.mk 1700000000 0 = timeUnix et 0 ∧
      GoTime.mk 1700000000 500000000 =
        timeUnix (g.tdiv 1000) (g.tmod 1000 * 1000000) :=
  claim_c5_timestamp_decode.1 scenarioMap "e1" ⟨1700000000, 0⟩
    ⟨1700000000, 500000000⟩ "\x7b\"ok\":true\x7d" rfl

/-- C6: the category-to-stream mapping is fixed and total over the closed
event set: the public-message category has its own stream; the group, IM,
multi-party-IM and app-home variants all share the private-message
stream; team-join and channel-join have their own distinct streams; and
the private-messages registration binds its consumer to exactly the
stream those private variants publish to. -/
theorem claim_c6_stream_mapping :
    publishStream SlackMessageChannel = slackPublicMessage ∧
    publishStream SlackMessageGroup = slackPrivateMessage ∧
    publishStream SlackMessageIM = slackPrivateMessage ∧
    publishStream SlackMessageMPIM = slackPrivateMessage ∧
    publishStream SlackMessageAppHome = slackPrivateMessage ∧
    publishStream SlackTeamJoin = slackTeamJoin ∧
    publishStream SlackChannelJoin = slackChannelJoin ∧
    slackPublicMessage ≠ slackPrivateMessage ∧
    slackPublicMessage ≠ slackTeamJoin ∧
    slackPublicMessage ≠ slackChannelJoin ∧
    slackPrivateMessage ≠ slackTeamJoin ∧
    slackPrivateMessage ≠ slackChannelJoin ∧
    slackTeamJoin ≠ slackChannelJoin ∧
    (∀ (P : Type) (timeout : Int) (parseP : String → Except String P)
       (fn : Option P → Bool × Bool × Option String),
       (registerPrivateMessagesHandler timeout parseP fn).stream =
         publishStream SlackMessageGroup ∧
       (registerPrivateMessagesHandler timeout parseP fn).stream =
         publishStream SlackMessageIM ∧
       (registerPrivateMessagesHandler timeout parseP fn).stream =
         publishStream SlackMessageMPIM ∧
       (registerPrivateMessagesHandler timeout parseP fn).stream =
         publishStream SlackMessageAppHome) :=
  ⟨rfl, rfl, rfl, rfl, rfl, rfl, rfl, by decide, by decide, by decide,
   by decide, by decide, by decide, fun P t p f => ⟨rfl, rfl, rfl, rfl⟩⟩

/-- C7: the message, team-join and channel-join dispatch wrappers are the
same pipeline: for the same delivered message, payload parser and handler
they produce identical action traces and identical returned errors; the
Go versions differ only in the domain type the json payload is
unmarshalled into, which is the type parameter here. -/
theorem claim_c7_factories_agree {P : Type} (timeout : Int)
    (parseP : String → Except String P)
    (fn : Option P → Bool × Bool × Option String) (m : Message) :
    teamJoinHandlerFactory timeout parseP fn m =
      messageHandlerFactory timeout parseP fn m ∧
    channelJoinHandlerFactory timeout parseP fn m =
      messageHandlerFactory timeout parseP fn m :=
  ⟨rfl, rfl⟩

/-- C8: in every dispatch that reaches the handler, the wrapper performs,
in order: creation of the context carrying the registered timeout (its
deadline is now + timeout) and the event metadata, the handler call, and
the cancellation of the context immediately after the handler returns —
before any outcome classification or acknowledgment logging, on the
success, discarded, retryable and non-retryable paths alike; the same
holds for the channel-join wrapper. -/
theorem claim_c8_ctx_lifecycle {P : Type} (timeout : Int)
    (parseP : String → Except String P)
    (fn : Option P → Bool × Bool × Option String) (m : Message) :
    (∀ sm : Option P,
       DispatchEvent.handlerCalled sm ∈
         (messageHandlerFactory timeout parseP fn m).1 →
       ∃ meta tail, (messageHandlerFactory timeout parseP fn m).1 =
         DispatchEvent.ctxCreated timeout meta :: DispatchEvent.handlerCalled sm ::
           DispatchEvent.ctxCanceled :: tail ∧
         ∀ ev ∈ tail, (∃ e, ev = DispatchEvent.logDiscarded e) ∨
           (∃ b e, ev = DispatchEvent.logHandlerFailed b e) ∨
           ev = DispatchEvent.logComplete) ∧
    (∀ sm : Option P,
       DispatchEvent.handlerCalled sm ∈
         (channelJoinHandlerFactory timeout parseP fn m).1 →
       ∃ meta tail, (channelJoinHandlerFactory timeout parseP fn m).1 =
         DispatchEvent.ctxCreated timeout meta :: DispatchEvent.handlerCalled sm ::
           DispatchEvent.ctxCanceled :: tail ∧
         ∀ ev ∈ tail, (∃ e, ev = DispatchEvent.logDiscarded e) ∨
           (∃ b e, ev = DispatchEvent.logHandlerFailed b e) ∨
           ev = DispatchEvent.logComplete) := by
  have key : ∀ sm : Option P,
      DispatchEvent.handlerCalled sm ∈
        (messageHandlerFactory timeout parseP fn m).1 →
      ∃ meta tail, (messageHandlerFactory timeout parseP fn m).1 =
        DispatchEvent.ctxCreated timeout meta :: DispatchEvent.handlerCalled sm ::
          DispatchEvent.ctxCanceled :: tail ∧
        ∀ ev ∈ tail, (∃ e, ev = DispatchEvent.logDiscarded e) ∨
          (∃ b e, ev = DispatchEvent.logHandlerFailed b e) ∨
          ev = DispatchEvent.logComplete := by
    intro sm hmem
    cases hp : parseGatewayMessage m.values with
    | error e =>
      unfold messageHandlerFactory at hmem
      rw [hp] at hmem
      simp at hmem
    | ok v =>
      obtain ⟨eid, et, gt, d⟩ := v
      cases hj : jsonUnmarshalPtr parseP d with
      | error e =>
        unfold messageHandlerFactory at hmem
        rw [hp] at hmem
        dsimp only at hmem
        rw [hj] at hmem
        simp at hmem
      | ok sm2 =>
        rcases hfn : fn sm2 with ⟨sr, dis, err⟩
        rcases err with _ | e
        · have htrace : (messageHandlerFactory timeout parseP fn m).1 =
              [DispatchEvent.ctxCreated timeout ⟨eid, et, gt, m.id⟩,
               DispatchEvent.handlerCalled sm2, DispatchEvent.ctxCanceled,
               DispatchEvent.logComplete] := by
            unfold messageHandlerFactory
            rw [hp]
            dsimp only
            rw [hj]
            dsimp only
            rw [hfn]
          rw [htrace] at hmem ⊢
          simp at hmem
          subst hmem
          exact ⟨⟨eid, et, gt, m.id⟩, [DispatchEvent.logComplete], rfl, by simp⟩
        · rcases dis
          · rcases sr
            · have htrace : (messageHandlerFactory timeout parseP fn m).1 =
                  [DispatchEvent.ctxCreated timeout ⟨eid, et, gt, m.id⟩,
                   DispatchEvent.handlerCalled sm2, DispatchEvent.ctxCanceled,
                   DispatchEvent.logHandlerFailed false e] := by
                unfold messageHandlerFactory
                rw [hp]
                dsimp only
                rw [hj]
                dsimp only
                rw [hfn]
                rfl
              rw [htrace] at hmem ⊢
              simp at hmem
              subst hmem
              exact ⟨⟨eid, et, gt, m.id⟩,
                [DispatchEvent.logHandlerFailed false e], rfl, by simp⟩
            · have htrace : (messageHandlerFactory timeout parseP fn m).1 =
                  [DispatchEvent.ctxCreated timeout ⟨eid, et, gt, m.id⟩,
                   DispatchEvent.handlerCalled sm2, DispatchEvent.ctxCanceled,
                   DispatchEvent.logHandlerFailed true e] := by
                unfold messageHandlerFactory
                rw [hp]
                dsimp only
                rw [hj]
                dsimp only
                rw [hfn]
                rfl
              rw [htrace] at hmem ⊢
              simp at hmem
              subst hmem
              exact ⟨⟨eid, et, gt, m.id⟩,
                [DispatchEvent.logHandlerFailed true e], rfl, by simp⟩
          · have htrace : (messageHandlerFactory timeout parseP fn m).1 =
                [DispatchEvent.ctxCreated timeout ⟨eid, et, gt, m.id⟩,
                 DispatchEvent.handlerCalled sm2, DispatchEvent.ctxCanceled,
                 DispatchEvent.logDiscarded e] := by
              unfold messageHandlerFactory
              rw [hp]
              dsimp only
              rw [hj]
              dsimp only
              rw [hfn]
              rfl
            rw [htrace] at hmem ⊢
            simp at hmem
            subst hmem
            exact ⟨⟨eid, et, gt, m.id⟩,
              [DispatchEvent.logDiscarded e], rfl, by simp⟩
  have hch : channelJoinHandlerFactory timeout parseP fn m =
      messageHandlerFactory timeout parseP fn m := rfl
  refine ⟨key, ?_⟩
  rw [hch]
  exact key

/-- Witness for C8: on the scenario message with a succeeding handler, the
trace is context creation, handler call, context cancellation, then only
outcome logging. -/
theorem claim_c8_ctx_lifecycle_witness :
    ∃ meta tail,
      (messageHandlerFactory (P := Unit) 7 (fun _ => Except.ok ())
        (fun _ => (false, false, none)) scenarioMessage).1 =
        DispatchEvent.ctxCreated 7 meta ::
          DispatchEvent.handlerCalled (some ()) ::
          DispatchEvent.ctxCanceled :: tail ∧
      ∀ ev ∈ tail, (∃ e, ev = DispatchEvent.logDiscarded e) ∨
        (∃ b e, ev = DispatchEvent.logHandlerFailed b e) ∨
        ev = DispatchEvent.logComplete :=
  (claim_c8_ctx_lifecycle 7 (fun _ => Except.ok ())
    (fun _ => (false, false, none)) scenarioMessage).1 (some ())
    (by
      have h : (messageHandlerFactory (P := Unit) 7 (fun _ => Except.ok ())
          (fun _ => (false, false, none)) scenarioMessage).1 =
          [DispatchEvent.ctxCreated 7
            ⟨"e1", ⟨1700000000, 0⟩, ⟨1700000000, 500000000⟩, "1-1"⟩,
           DispatchEvent.handlerCalled (some ()), DispatchEvent.ctxCanceled,
           DispatchEvent.logComplete] := rfl
      rw [h]
      simp)

/-- C9: a delivered message can pass both decode stages yet hand the
handler a nil domain payload: the JSON literal null unmarshals into the
pointer-typed destination by leaving it nil, so the wrapper invokes the
handler with a nil pointer instead of acknowledging the message as
undecodable. -/
theorem claim_c9_null_payload :
    parseGatewayMessage nullPayloadMessage.values =
      .ok ("e1", ⟨1700000000, 0⟩, ⟨1700000000, 500000000⟩, "null") ∧
    jsonUnmarshalPtr (P := Unit) (fun _ => Except.ok ()) "null" = .ok none ∧
    messageHandlerFactory (P := Unit) 5 (fun _ => Except.ok ())
      (fun p => (false, false, if p.isNone then some "nil payload" else none))
      nullPayloadMessage =
      ([DispatchEvent.ctxCreated 5
          ⟨"e1", ⟨1700000000, 0⟩, ⟨1700000000, 500000000⟩, "1-3"⟩,
        DispatchEvent.handlerCalled none, DispatchEvent.ctxCanceled,
        DispatchEvent.logHandlerFailed false "nil payload"], none) ∧
    teamJoinHandlerFactory (P := Unit) 5 (fun _ => Except.ok ())
      (fun p => (false, false, if p.isNone then some "nil payload" else none))
      nullPayloadMessage =
      ([DispatchEvent.ctxCreated 5
          ⟨"e1", ⟨1700000000, 0⟩, ⟨1700000000, 500000000⟩, "1-3"⟩,
        DispatchEvent.handlerCalled none, DispatchEvent.ctxCanceled,
        DispatchEvent.logHandlerFailed false "nil payload"], none) :=
  ⟨rfl, rfl, rfl, rfl⟩

/-- C10: envelope decoding applies no range validation to timestamps —
every int64 value of event_ts and gateway_ts, including zero and negative
values, decodes — and the millisecond decomposition of unix is exact:
quotient g/1000 truncated toward zero, remainder (g mod 1000)·10^6
nanoseconds, with 1000·q + r/10^6 = g and the remainder product bounded
well inside int64. -/
theorem claim_c10_unix_exact :
    (∀ g : Int,
       unix g = (g.tdiv 1000, g.tmod 1000 * 1000000) ∧
       1000 * (unix g).1 + (unix g).2.tdiv 1000000 = g ∧
       (unix g).2.natAbs ≤ 999000000) ∧
    (∀ et g : Int,
       -(2 ^ 63) ≤ et → et ≤ 2 ^ 63 - 1 → -(2 ^ 63) ≤ g → g ≤ 2 ^ 63 - 1 →
       ∀ eventID requestID jsonData : String,
       parseGatewayMessage (publishValues g et eventID requestID jsonData) =
         .ok (eventID, ⟨et, 0⟩,
           timeUnix (g.tdiv 1000) (g.tmod 1000 * 1000000), jsonData)) := by
  constructor
  · intro g
    refine ⟨rfl, ?_, ?_⟩
    · have h := Int.tdiv_add_tmod g 1000
      have h2 : (unix g).2.tdiv 1000000 = g.tmod 1000 := by
        show (g.tmod 1000 * 1000000).tdiv 1000000 = g.tmod 1000
        exact Int.mul_tdiv_cancel _ (by norm_num)
      rw [h2]
      exact h
    · have habs : (g.tmod 1000).natAbs = g.natAbs % 1000 := natAbs_tmod g 1000
      have hmul : (unix g).2.natAbs = (g.tmod 1000).natAbs * 1000000 := by
        show (g.tmod 1000 * 1000000).natAbs = (g.tmod 1000).natAbs * 1000000
        rw [Int.natAbs_mul]
        rfl
      have hlt : (g.tmod 1000).natAbs < 1000 := by
        rw [habs]
        exact Nat.mod_lt _ (by norm_num)
      omega
  · intro et g h1 h2 h3 h4 eventID requestID jsonData
    exact parseGatewayMessage_publishValues g et h3 h4 h1 h2
      eventID requestID jsonData

/-- Witness for C10: a negative gateway_ts of -1500 ms and a zero event_ts
decode successfully with the truncated split. -/
theorem claim_c10_unix_exact_witness :
    parseGatewayMessage (publishValues (-1500) 0 "ev" "rq" "data") =
      .ok ("ev", ⟨0, 0⟩,
        timeUnix ((-1500 : Int).tdiv 1000) ((-1500 : Int).tmod 1000 * 1000000),
        "data") :=
  claim_c10_unix_exact.2 0 (-1500) (by norm_num) (by norm_num) (by norm_num)
    (by norm_num) "ev" "rq" "data"
